import Mathlib

/-!
Shallow embedding of the raspb_sm_dbell smart-doorbell device code
(`security.py`, `api_client.py`, `smart_doorbell.py`, `device_service.py`,
`recognizer.py`, `res_recognizer.py`) together with theorems settling the
frozen specification claims.

Machine floats (numpy/OpenCV confidences, `time.time()` values) are modelled
as rationals; Python exceptions that can escape a function are modelled with
`Except`; external collaborators (Fernet, the DNN detector, the DeepFace
embedder, linphone) are modelled by the data they hand back to the code under
verification, which is translated statement by statement.
-/

namespace Security

/-- A Python exception escaping `decrypt_request` / `door_control`
(these raise `KeyError` on a missing dict key and `TypeError` when
subscripting a non-dict JSON value; neither is in the `except` list). -/
inductive PyError where
  | keyError (key : String)
  | typeError
deriving Repr, DecidableEq

/-- The decrypted plaintext of a Fernet envelope, as seen by
`json.loads` and the subsequent subscripts in `security.py`:
either not valid JSON (`json.loads` raises `ValueError`), a JSON value that
is not an object (subscripting raises `TypeError`), or an object with
optional integer `timestamp` and string `action` fields. -/
inductive Plain where
  | malformed
  | notDict
  | dict (timestamp : Option Int) (action : Option String)
deriving Repr, DecidableEq

/-- A ciphertext envelope presented to `decrypt_request`: either it does not
decrypt under the pre-shared key (`fernet.decrypt` raises `InvalidToken`),
or it is a well-formed Fernet token carrying its internal issue timestamp
and a plaintext. -/
inductive Envelope where
  | invalid
  | token (tokenTime : Int) (plain : Plain)
deriving Repr, DecidableEq

/-- The payload `decrypt_request` returns on acceptance. -/
structure Payload where
  timestamp : Int
  action : Option String
deriving Repr, DecidableEq

/-- `fernet.decrypt(ciphertext, ttl=10)`: raises `InvalidToken` (here `none`)
when the token does not decrypt, when the token's internal timestamp is more
than `ttl = 10` seconds in the past, or more than the 60-second maximum clock
skew in the future. -/
def fernetDecrypt (now : Int) (e : Envelope) : Option Plain :=
  match e with
  | .invalid => none
  | .token tokenTime plain =>
      if tokenTime + 10 < now ∨ now + 60 < tokenTime then none else some plain

/-- `security.py`, `decrypt_request` (lines 13-26): decrypt with `ttl=10`,
parse JSON, then reject when `abs(now - payload["timestamp"]) > 10`.
`InvalidToken` and `ValueError` are caught and turned into `None`
(`Except.ok none`); a `KeyError` from a missing `"timestamp"` key or a
`TypeError` from subscripting a non-dict payload is not caught and
propagates (`Except.error`). -/
def decrypt_request (now : Int) (e : Envelope) : Except PyError (Option Payload) :=
  match fernetDecrypt now e with
  | none => .ok none
  | some .malformed => .ok none
  | some .notDict => .error .typeError
  | some (.dict ts act) =>
      match ts with
      | none => .error (.keyError "timestamp")
      | some t => if 10 < (now - t).natAbs then .ok none else .ok (some ⟨t, act⟩)

/-- Outcome of delivering each envelope of a list (at the given wall-clock
times) to `decrypt_request`. The function keeps no state between calls, so
each delivery is evaluated independently. -/
def deliverAll (ds : List (Int × Envelope)) : List (Except PyError (Option Payload)) :=
  ds.map (fun d => decrypt_request d.1 d.2)

end Security

/-- A concrete envelope: a valid token issued at `t = 5` whose payload is
`{"timestamp": 5, "action": "unlock"}`. -/
def envUnlock5 : Security.Envelope :=
  .token 5 (.dict (some 5) (some "unlock"))

/-- A concrete envelope: a valid token issued at `t = 3` whose payload is
`{"timestamp": 3, "action": "lock"}`. -/
def envLock3 : Security.Envelope :=
  .token 3 (.dict (some 3) (some "lock"))

/-- C3 counterexample: `decrypt_request` accepts `envUnlock5` at `t = 5`,
and an identical second delivery of the very same envelope at `t = 5`
(inside the 10-second window) is accepted again rather than rejected —
there is no consumed-command tracking. -/
theorem duplicate_delivery_accepted_at_t5 :
    Security.deliverAll [(5, envUnlock5), (5, envUnlock5)] =
      [.ok (some ⟨5, some "unlock"⟩), .ok (some ⟨5, some "unlock"⟩)] := by
  rfl

/-- C3 (amended): `decrypt_request` keeps no per-command state, so any
envelope it accepts is accepted again on every identical redelivery at the
same instant; only the 10-second window check can reject, as the concrete
conjunct shows for a command issued at `t = 0` and replayed at `t = 15`. -/
theorem decrypt_request_accepts_duplicate_within_window
    (now : Int) (e : Security.Envelope) (p : Security.Payload)
    (h : Security.decrypt_request now e = .ok (some p)) :
    Security.deliverAll [(now, e), (now, e)] = [.ok (some p), .ok (some p)] ∧
      Security.decrypt_request 15 (.token 0 (.dict (some 0) (some "unlock"))) =
        .ok none := by
  constructor
  · simp [Security.deliverAll, h]
  · rfl

/-- Witness for C3 (amended) at the concrete envelope `envUnlock5`. -/
theorem decrypt_request_accepts_duplicate_within_window_witness :
    Security.deliverAll [(5, envUnlock5), (5, envUnlock5)] =
      [.ok (some ⟨5, some "unlock"⟩), .ok (some ⟨5, some "unlock"⟩)] ∧
      Security.decrypt_request 15 (.token 0 (.dict (some 0) (some "unlock"))) =
        .ok none :=
  decrypt_request_accepts_duplicate_within_window 5 envUnlock5 ⟨5, some "unlock"⟩ (by rfl)

/-- C4 (code bug): an envelope that decrypts cleanly to the well-formed JSON
object `{"action": "unlock"}` — malformed only in that it lacks the required
`"timestamp"` field — makes `decrypt_request` raise an uncaught `KeyError`
instead of returning the rejection value `None`: the `except` clause lists
only `InvalidToken` and `ValueError`. -/
theorem decrypt_request_missing_timestamp_raises :
    Security.decrypt_request 5 (.token 5 (.dict none (some "unlock"))) =
      .error (.keyError "timestamp") := by
  rfl

namespace Doorbell

/-- The two values ever assigned to `local_door_state` in
`smart_doorbell.py` (`"locked"` / `"unlocked"`). -/
inductive DoorSt where
  | locked
  | unlocked
deriving Repr, DecidableEq

/-- Observable side effects of the device handlers: hardware actuations,
backend calls and UI status emissions, in program order. -/
inductive HwAction where
  | lcdDisplay (line1 line2 : String)
  | emitStatus (state : String)
  | relayOpen
  | relayClose
  | redOn
  | redOff
  | yellowOn
  | yellowOff
  | buzzerBeep (ms : Nat)
  | uploadImage
  | notify (status : String)
  | sleep (seconds : Nat)
deriving Repr, DecidableEq

end Doorbell

namespace DeviceService

open Doorbell

/-- `device_service.py`, `DeviceService.handle_recognized_person`
(lines 191-244). `door_state` is the string read from
`api_client.get_door_state()` at that moment (the backend can hand back any
string; the code compares it against `"locked"` only). The locked branch
actuates the red (failure) indicator and enqueues a `recognized_denied`
notification without touching the relay; the other branch opens the relay
for a 5-second dwell. -/
def handle_recognized_person (door_state : String) (name : String) : List HwAction :=
  [.lcdDisplay "Welcome" name, .uploadImage] ++
    (if door_state = "locked" then
      [.lcdDisplay "Door Locked" "Access Denied", .redOn, .buzzerBeep 200,
       .notify "recognized_denied", .sleep 3, .redOff]
    else
      [.relayOpen, .yellowOn, .buzzerBeep 100, .notify "recognized_granted",
       .sleep 5, .relayClose, .yellowOff])

end DeviceService

namespace SmartDoorbell

open Doorbell

/-- The mutable fields of `DeviceServiceLocal` (`smart_doorbell.py`) that the
claims are about. In `__init__`: `call_in_progress = False`,
`last_button_press = 0`, `local_door_state = "locked"`. -/
structure SDState where
  call_in_progress : Bool
  last_button_press : ℚ
  local_door_state : DoorSt
deriving Repr, DecidableEq

/-- `smart_doorbell.py`, `DeviceServiceLocal.handle_recognized_person`
(lines 204-233): the effect trace and the net state. The relay is opened
unconditionally — no door-state read gates it — then closed after the
5-second dwell, leaving `local_door_state = "locked"`. -/
def handle_recognized_person (s : SDState) (_name : String) : List HwAction × SDState :=
  ([.emitStatus "access_granted", .uploadImage, .notify "recognized",
    .relayOpen, .buzzerBeep 100, .sleep 5, .relayClose, .emitStatus "idle"],
   { s with local_door_state := .locked })

/-- `smart_doorbell.py`, `DeviceServiceLocal.handle_unrecognized_person`
(lines 235-247): closes the relay, beeps, and leaves the door locked. -/
def handle_unrecognized_person (s : SDState) : List HwAction × SDState :=
  ([.relayClose, .emitStatus "access_denied", .buzzerBeep 300, .sleep 3,
    .emitStatus "idle"],
   { s with local_door_state := .locked })

/-- HTTP response of the `/api/door/control` route. -/
inductive DoorResponse where
  | badRequest (msg : String)
  | forbidden
  | accepted (status : DoorSt)
  | serverError (e : Security.PyError)
deriving Repr, DecidableEq

/-- `smart_doorbell.py`, `door_control` (lines 332-364): decrypts the
envelope, 403s when `decrypt_request` returned `None`, reads
`payload["action"]` (an uncaught `KeyError` when absent), and applies the
action to `local_door_state` unconditionally — no timestamp is consulted
when writing the state. -/
def door_control (now : Int) (enc : Option Security.Envelope) (s : DoorSt) :
    DoorResponse × DoorSt :=
  match enc with
  | none => (.badRequest "missing payload", s)
  | some e =>
      match Security.decrypt_request now e with
      | .error pe => (.serverError pe, s)
      | .ok none => (.forbidden, s)
      | .ok (some p) =>
          match p.action with
          | none => (.serverError (.keyError "action"), s)
          | some a =>
              if a = "unlock" then (.accepted .unlocked, .unlocked)
              else if a = "lock" then (.accepted .locked, .locked)
              else (.badRequest "invalid action", s)

end SmartDoorbell

/-- C1 counterexample: in `DeviceServiceLocal` (`smart_doorbell.py`), a
recognition cycle that matches a face while `local_door_state` reads
`"locked"` still opens the relay — the handler never consults the door
state, refuting "the relay is never opened" on the locked path. -/
theorem smartDoorbell_relay_opens_while_locked :
    Doorbell.HwAction.relayOpen ∈
      (SmartDoorbell.handle_recognized_person ⟨false, 0, .locked⟩ "Alice").1 := by
  decide

/-- C1 (amended): in `DeviceService` (`device_service.py`), when the door
state read at that moment is `"locked"`, the denied path is taken — the
relay is not opened, the red failure indicator is actuated, and a
`recognized_denied` notification is enqueued; dually, the relay is opened
only when that read differs from `"locked"` (the code compares against
`"locked"` alone, so any other value takes the granted branch). -/
theorem deviceService_locked_takes_denied_path (ds name : String) :
    (ds = "locked" →
      Doorbell.HwAction.relayOpen ∉ DeviceService.handle_recognized_person ds name ∧
      Doorbell.HwAction.redOn ∈ DeviceService.handle_recognized_person ds name ∧
      Doorbell.HwAction.notify "recognized_denied" ∈
        DeviceService.handle_recognized_person ds name) ∧
    (Doorbell.HwAction.relayOpen ∈ DeviceService.handle_recognized_person ds name →
      ds ≠ "locked") := by
  constructor
  · intro h
    subst h
    refine ⟨?_, ?_, ?_⟩ <;> simp [DeviceService.handle_recognized_person]
  · intro hmem heq
    subst heq
    simp [DeviceService.handle_recognized_person] at hmem

/-- Witness for C1 (amended) at the concrete read `"locked"`. -/
theorem deviceService_locked_takes_denied_path_witness :
    Doorbell.HwAction.relayOpen ∉
      DeviceService.handle_recognized_person "locked" "Alice" ∧
    Doorbell.HwAction.redOn ∈ DeviceService.handle_recognized_person "locked" "Alice" ∧
    Doorbell.HwAction.notify "recognized_denied" ∈
      DeviceService.handle_recognized_person "locked" "Alice" :=
  (deviceService_locked_takes_denied_path "locked" "Alice").1 rfl

/-- C2 counterexample: door-state writes consult no timestamp. The remote
unlock command issued at `t = 5` followed by the lock command issued at
`t = 3`, both delivered (and both accepted) at `now = 5`, leave the door
`"locked"` — the stale `t = 3` write wins, where the claim demands the run
end `"unlocked"`. -/
theorem door_sequence_unlock5_lock3_ends_locked :
    (SmartDoorbell.door_control 5 (some envUnlock5) Doorbell.DoorSt.locked).1 =
        .accepted .unlocked ∧
    (SmartDoorbell.door_control 5 (some envLock3)
        (SmartDoorbell.door_control 5 (some envUnlock5) Doorbell.DoorSt.locked).2).1 =
        .accepted .locked ∧
    (SmartDoorbell.door_control 5 (some envLock3)
        (SmartDoorbell.door_control 5 (some envUnlock5) Doorbell.DoorSt.locked).2).2 =
        Doorbell.DoorSt.locked := by
  refine ⟨rfl, rfl, rfl⟩

/-- C2 (amended): `door_control` applies every accepted command to the door
state unconditionally — last writer wins; the command's `timestamp` field is
used only by the replay-window check inside `decrypt_request` and never
compared against the current state, so an accepted `lock` always leaves the
state `"locked"` and an accepted `unlock` always leaves it `"unlocked"`,
whatever was stored before and whatever the timestamps are. -/
theorem door_control_ignores_timestamps
    (now : Int) (e : Security.Envelope) (p : Security.Payload)
    (s : Doorbell.DoorSt)
    (h : Security.decrypt_request now e = .ok (some p)) :
    (p.action = some "lock" →
      (SmartDoorbell.door_control now (some e) s).2 = .locked) ∧
    (p.action = some "unlock" →
      (SmartDoorbell.door_control now (some e) s).2 = .unlocked) := by
  constructor <;> intro ha <;> simp [SmartDoorbell.door_control, h, ha]

/-- Witness for C2 (amended): the lock command issued at `t = 3` applied on
top of the unlocked state ends locked. -/
theorem door_control_ignores_timestamps_witness :
    (SmartDoorbell.door_control 5 (some envLock3) Doorbell.DoorSt.unlocked).2 =
      Doorbell.DoorSt.locked :=
  (door_control_ignores_timestamps 5 envLock3 ⟨3, some "lock"⟩
    Doorbell.DoorSt.unlocked (by rfl)).1 rfl

namespace Recognizer

/-- A detection bounding box `(startX, startY, endX, endY)` as handed around
in `recognizer.py` / `res_recognizer.py` (`box.astype("int")` values are
arbitrary machine integers before clamping). -/
structure Box where
  startX : Int
  startY : Int
  endX : Int
  endY : Int
deriving Repr, DecidableEq

/-- One raw row of `detections[0, 0, i]` produced by the external DNN:
its confidence and the four scaled corner coordinates after
`box.astype("int")`. -/
structure RawDet where
  conf : ℚ
  x1 : Int
  y1 : Int
  x2 : Int
  y2 : Int
deriving Repr, DecidableEq

/-- The clamping block of `FaceDetector.detect` (identical in
`recognizer.py` and `res_recognizer.py`, lines 36-40):
`startX = max(0, startX)`, `startY = max(0, startY)`,
`endX = min(w, endX)`, `endY = min(h, endY)`. -/
def clampBox (h w : Int) (r : RawDet) : Box :=
  ⟨max 0 r.x1, max 0 r.y1, min w r.x2, min h r.y2⟩

/-- `FaceDetector.detect` (lines 19-47) over a frame of shape `(h, w)`:
keeps every raw detection whose confidence exceeds the fixed
`confidence_threshold = 0.5` and clamps its box to the frame. -/
def detect (h w : Int) : List RawDet → List (Box × ℚ)
  | [] => []
  | r :: rest =>
      if 1/2 < r.conf then (clampBox h w r, r.conf) :: detect h w rest
      else detect h w rest

/-- Number of indices selected by the numpy slice `a:b` along an axis of
length `n`, for the nonnegative bounds `detect` produces:
`max 0 (min b n - min a n)`. -/
def sliceLen (n a b : Int) : Int :=
  max 0 (min b n - min a n)

/-- Row count of the crop `frame[startY:endY, startX:endX]`. -/
def cropRows (h : Int) (b : Box) : Int :=
  sliceLen h b.startY b.endY

/-- Column count of the crop `frame[startY:endY, startX:endX]`. -/
def cropCols (w : Int) (b : Box) : Int :=
  sliceLen w b.startX b.endX

/-- `cv2.error`: `cv2.resize` raises when its source image is empty. -/
inductive CvError where
  | resizeEmptySource
deriving Repr, DecidableEq

/-- The loop accumulator of `Recognizer.recognize`:
`recognized`, `best_confidence` (initialised to `0`) and `best_match`. -/
structure ScanState where
  recognized : Bool
  best_confidence : ℚ
  best_match : Option (String × ℚ)
deriving Repr, DecidableEq

/-- The gallery-comparison loop of `Recognizer.recognize`
(`recognizer.py` lines 216-237, `res_recognizer.py` lines 140-161): for each
`(person_name, cos_sim)` pair in gallery order, the accumulator is updated
exactly when `cos_sim > threshold and cos_sim > best_confidence`. -/
def scanGallery (threshold : ℚ) : List (String × ℚ) → ScanState → ScanState
  | [], st => st
  | entry :: rest, st =>
      if threshold < entry.2 ∧ st.best_confidence < entry.2 then
        scanGallery threshold rest ⟨true, entry.2, some (entry.1, entry.2)⟩
      else
        scanGallery threshold rest st

/-- The verdict `recognize` derives from the accumulator:
`if recognized and best_match: return True, ...` -/
def verdict (st : ScanState) : Bool :=
  st.recognized && st.best_match.isSome

/-- What one detected face feeds into the per-face processing of
`Recognizer.recognize`: the clamped box from `detect`, the detection
confidence, and the external embedder's outcome — `none` when
`DeepFace.represent` raises (caught by the per-face `try`), or the cosine
similarity of the resulting probe against each gallery entry, in gallery
order. -/
structure FaceInput where
  box : Box
  conf : ℚ
  embed : Option (List ℚ)
deriving Repr, DecidableEq

/-- Result of `Recognizer.recognize`. -/
inductive RecResult where
  | noFaces
  | noMatch (facesDetected : Nat)
  | matched (name : String) (conf : ℚ)
deriving Repr, DecidableEq

/-- The per-face loop of `recognizer.py`'s `Recognizer.recognize`
(lines 195-241). For each face the code runs, in order:
`face_region = frame[startY:endY, startX:endX]` then
`face_region = cv2.resize(face_region, (160, 160))` — the resize sits
BEFORE the `if face_region.size == 0: continue` guard and OUTSIDE the
`try`, so an empty crop raises `cv2.error` out of `recognize` (modelled as
`Except.error`); a non-empty crop is resized to 160×160, the dead size
guard never fires, and the embedder call plus gallery scan run inside the
`try` (an embedder failure degrades to skipping that face). -/
def recognizeGo (h w : Int) (threshold : ℚ) (gallery : List String) :
    List FaceInput → ScanState → Except CvError ScanState
  | [], st => .ok st
  | f :: rest, st =>
      if cropRows h f.box ≤ 0 ∨ cropCols w f.box ≤ 0 then
        .error .resizeEmptySource
      else
        match f.embed with
        | none => recognizeGo h w threshold gallery rest st
        | some sims =>
            recognizeGo h w threshold gallery rest
              (scanGallery threshold (gallery.zip sims) st)

/-- `recognizer.py`, `Recognizer.recognize` (lines 182-256): no detected
faces reports `no_faces_detected`; otherwise the per-face loop runs from the
accumulator `⟨false, 0, none⟩` and the final verdict is
`recognized and best_match`. -/
def recognize (h w : Int) (threshold : ℚ) (gallery : List String)
    (faces : List FaceInput) : Except CvError RecResult :=
  match faces with
  | [] => .ok .noFaces
  | _ :: _ =>
      match recognizeGo h w threshold gallery faces ⟨false, 0, none⟩ with
      | .error e => .error e
      | .ok st =>
          if verdict st then
            match st.best_match with
            | some bm => .ok (.matched bm.1 bm.2)
            | none => .ok (.noMatch faces.length)
          else .ok (.noMatch faces.length)

end Recognizer

/-- Helper: the `recognized` flag after the gallery scan is set exactly when
some entry's similarity exceeds both the threshold and the accumulator's
incoming `best_confidence`. -/
theorem scanGallery_recognized_eq (threshold : ℚ) (l : List (String × ℚ))
    (st : Recognizer.ScanState) :
    (Recognizer.scanGallery threshold l st).recognized =
      (st.recognized ||
        l.any (fun e => decide (threshold < e.2) && decide (st.best_confidence < e.2))) := by
  induction l generalizing st with
  | nil => simp [Recognizer.scanGallery]
  | cons e rest ih =>
      by_cases hc : threshold < e.2 ∧ st.best_confidence < e.2
      · simp [Recognizer.scanGallery, hc, ih, hc.1, hc.2]
      · rw [Recognizer.scanGallery, if_neg hc, ih]
        rcases not_and_or.mp hc with hc1 | hc1 <;> simp [hc1]

/-- Helper: the scan keeps `best_match.isSome` equal to `recognized`
(they are only ever set together). -/
theorem scanGallery_isSome_eq (threshold : ℚ) (l : List (String × ℚ))
    (st : Recognizer.ScanState)
    (h : st.best_match.isSome = st.recognized) :
    (Recognizer.scanGallery threshold l st).best_match.isSome =
      (Recognizer.scanGallery threshold l st).recognized := by
  induction l generalizing st with
  | nil => simpa [Recognizer.scanGallery] using h
  | cons e rest ih =>
      by_cases hc : threshold < e.2 ∧ st.best_confidence < e.2
      · rw [Recognizer.scanGallery, if_pos hc]
        exact ih _ rfl
      · rw [Recognizer.scanGallery, if_neg hc]
        exact ih _ h

/-- C8 counterexample: with acceptance threshold `θ = -2` and a single
computed similarity `s = -1`, the code reports *not matched* even though
`s > θ`: the running `best_confidence` starts at `0`, so the update guard
`cos_sim > threshold and cos_sim > best_confidence` also demands `s > 0`. -/
theorem negative_threshold_similarity_not_matched :
    Recognizer.recognize 480 640 (-2) ["person"]
        [⟨⟨0, 0, 100, 100⟩, 1, some [-1]⟩] = .ok (.noMatch 1) ∧
      (-2 : ℚ) < -1 := by
  refine ⟨rfl, by norm_num⟩

/-- C8 (amended): starting from the accumulator `⟨false, 0, none⟩` that
`recognize` uses, the verdict is *matched* exactly when some computed
similarity `s` satisfies both `s > θ` and `s > 0` (the second conjunct comes
from `best_confidence` being initialised to `0`). For the non-negative
thresholds the code instantiates (`0.40`, `0.60`) this is exactly `s > θ`,
and a similarity equal to the threshold is reported as not matched. -/
theorem scanGallery_matched_iff_above_threshold_and_positive
    (threshold : ℚ) (entries : List (String × ℚ)) :
    Recognizer.verdict (Recognizer.scanGallery threshold entries ⟨false, 0, none⟩) =
      entries.any (fun e => decide (threshold < e.2) && decide (0 < e.2)) := by
  rw [Recognizer.verdict, Bool.and_comm,
    scanGallery_isSome_eq threshold entries ⟨false, 0, none⟩ rfl,
    Bool.and_self, scanGallery_recognized_eq]
  simp

/-- C5 (code bug): in `recognizer.py`, `cv2.resize` is applied to the face
crop before the `size == 0` guard and outside the `try`, so a frame whose
first detection has a zero-width (degenerate) box makes `recognize` raise
`cv2.error` past its boundary instead of degrading that face to no-match —
and the second, well-formed face (similarity `0.8 > θ = 0.6`) is never
processed: the pipeline stops. -/
theorem recognize_raises_on_degenerate_crop :
    Recognizer.recognize 480 640 (3/5) ["Alice"]
        [⟨⟨10, 10, 10, 50⟩, 9/10, none⟩,
         ⟨⟨0, 0, 100, 100⟩, 9/10, some [4/5]⟩] =
      .error .resizeEmptySource := by
  rfl

/-- C10 (as claimed): every detection `FaceDetector.detect` returns on an
`h × w` frame has its box clamped inside the frame — `0 ≤ startX`,
`0 ≤ startY`, `endX ≤ w`, `endY ≤ h` — and consequently every pixel index
`(y, x)` of the crop `frame[startY:endY, startX:endX]` lies inside the
frame. -/
theorem detect_boxes_clamped_within_frame (h w : Int)
    (raw : List Recognizer.RawDet) (f : Recognizer.Box × ℚ)
    (hf : f ∈ Recognizer.detect h w raw) :
    (0 ≤ f.1.startX ∧ 0 ≤ f.1.startY ∧ f.1.endX ≤ w ∧ f.1.endY ≤ h) ∧
      ∀ y x : Int, f.1.startY ≤ y → y < f.1.endY → f.1.startX ≤ x →
        x < f.1.endX → 0 ≤ y ∧ y < h ∧ 0 ≤ x ∧ x < w := by
  induction raw with
  | nil => simp [Recognizer.detect] at hf
  | cons r rest ih =>
      rw [Recognizer.detect] at hf
      by_cases hc : (1 : ℚ)/2 < r.conf
      · rw [if_pos hc] at hf
        rcases List.mem_cons.mp hf with hf | hf
        · subst hf
          refine ⟨⟨le_max_left _ _, le_max_left _ _, min_le_left _ _, min_le_left _ _⟩,
            fun y x hy1 hy2 hx1 hx2 => ?_⟩
          simp only [Recognizer.clampBox] at hy1 hy2 hx1 hx2
          have b1 : (0 : Int) ≤ max 0 r.y1 := le_max_left _ _
          have b2 : min h r.y2 ≤ h := min_le_left _ _
          have b3 : (0 : Int) ≤ max 0 r.x1 := le_max_left _ _
          have b4 : min w r.x2 ≤ w := min_le_left _ _
          exact ⟨le_trans b1 hy1, lt_of_lt_of_le hy2 b2,
            le_trans b3 hx1, lt_of_lt_of_le hx2 b4⟩
        · exact ih hf
      · rw [if_neg hc] at hf
        exact ih hf

/-- Witness for C10: the raw detection `(-5, -3, 700, 900)` at confidence
`0.9` on a `480 × 640` frame is clamped to `(0, 0, 640, 480)`, and the
theorem applies to it. -/
theorem detect_boxes_clamped_within_frame_witness :
    ((⟨⟨0, 0, 640, 480⟩, 9/10⟩ : Recognizer.Box × ℚ) ∈
        Recognizer.detect 480 640 [⟨9/10, -5, -3, 700, 900⟩]) ∧
      ((0 ≤ (0 : Int) ∧ 0 ≤ (0 : Int) ∧ (640 : Int) ≤ 640 ∧ (480 : Int) ≤ 480) ∧
        ∀ y x : Int, (0 : Int) ≤ y → y < 480 → (0 : Int) ≤ x → x < 640 →
          0 ≤ y ∧ y < 480 ∧ 0 ≤ x ∧ x < 640) :=
  ⟨by norm_num [Recognizer.detect, Recognizer.clampBox],
    detect_boxes_clamped_within_frame 480 640 [⟨9/10, -5, -3, 700, 900⟩]
      ⟨⟨0, 0, 640, 480⟩, 9/10⟩
      (by norm_num [Recognizer.detect, Recognizer.clampBox])⟩

namespace SmartDoorbell

/-- One iteration's input to the camera loop of
`DeviceServiceLocal.start_camera_loop` (`smart_doorbell.py` lines 104-180):
the wall-clock `time.time()` at which the loop examines the frame, the
number of detected faces, and whether `recognized_info` resolved. -/
structure Frame where
  t : ℚ
  faces : Nat
  recog : Bool
deriving Repr, DecidableEq

/-- A recognition cycle: its start time — the `current_time` the loop stamps
into `last_recognition_time` — and the handler's minimum wall-clock
duration. -/
structure Cycle where
  start : ℚ
  dur : ℚ
deriving Repr, DecidableEq

/-- Minimum handler duration: `handle_recognized_person` holds for
`time.sleep(5)`, `handle_unrecognized_person` for `time.sleep(3)`. -/
def handlerDur (recog : Bool) : ℚ :=
  if recog then 5 else 3

/-- Camera-loop state: the `processing` guard (cleared again within the same
iteration by the single loop thread) and `last_recognition_time`
(initialised to `0`). -/
structure LoopState where
  processing : Bool
  last_recognition_time : ℚ
deriving Repr, DecidableEq

/-- The cycle-start logic of `start_camera_loop` (lines 162-170): a cycle
starts exactly when `faces and not self.processing and
(current_time - self.last_recognition_time > self.recognition_cooldown)`
with `recognition_cooldown = 3`; the loop then runs the handler inline and
stamps `last_recognition_time = current_time` — the time captured at the
START of the cycle, not at its completion. -/
def loopRun (s : LoopState) : List Frame → List Cycle
  | [] => []
  | f :: rest =>
      if 0 < f.faces ∧ s.processing = false ∧ s.last_recognition_time + 3 < f.t then
        ⟨f.t, handlerDur f.recog⟩ :: loopRun ⟨false, f.t⟩ rest
      else loopRun s rest

/-- Chronological admissibility of a frame trace for the single-threaded
loop: each frame is examined no earlier than `now`, and when an iteration
runs a handler, the next frame is examined no earlier than the handler's
end (the loop blocks while the handler sleeps). -/
def admissible (s : LoopState) (now : ℚ) : List Frame → Bool
  | [] => true
  | f :: rest =>
      decide (now ≤ f.t) &&
        (if 0 < f.faces ∧ s.processing = false ∧ s.last_recognition_time + 3 < f.t then
          admissible ⟨false, f.t⟩ (f.t + handlerDur f.recog) rest
        else admissible s f.t rest)

/-- Helper: handler durations are nonnegative. -/
theorem handlerDur_nonneg (recog : Bool) : 0 ≤ handlerDur recog := by
  cases recog <;> norm_num [handlerDur]

/-- Helper: on an admissible trace, every produced cycle starts no earlier
than the trace's earliest admissible examination time. -/
theorem loopRun_start_ge (s : LoopState) (now : ℚ) (fs : List Frame)
    (h : admissible s now fs = true) :
    ∀ c ∈ loopRun s fs, now ≤ c.start := by
  induction fs generalizing s now with
  | nil => intro c hc; simp [loopRun] at hc
  | cons f rest ih =>
      rw [admissible, Bool.and_eq_true, decide_eq_true_eq] at h
      obtain ⟨hnow, hbr⟩ := h
      intro c hc
      by_cases hcond :
          0 < f.faces ∧ s.processing = false ∧ s.last_recognition_time + 3 < f.t
      · rw [if_pos hcond] at hbr
        rw [loopRun, if_pos hcond] at hc
        rcases List.mem_cons.mp hc with hc | hc
        · subst hc; exact hnow
        · have := ih _ _ hbr c hc
          have hd := handlerDur_nonneg f.recog
          linarith
      · rw [if_neg hcond] at hbr
        rw [loopRun, if_neg hcond] at hc
        have := ih _ _ hbr c hc
        linarith

/-- Helper: every produced cycle starts strictly more than 3 seconds after
the `last_recognition_time` the run began with. -/
theorem loopRun_start_gt_cooldown (s : LoopState) (fs : List Frame) :
    ∀ c ∈ loopRun s fs, s.last_recognition_time + 3 < c.start := by
  induction fs generalizing s with
  | nil => intro c hc; simp [loopRun] at hc
  | cons f rest ih =>
      intro c hc
      by_cases hcond :
          0 < f.faces ∧ s.processing = false ∧ s.last_recognition_time + 3 < f.t
      · rw [loopRun, if_pos hcond] at hc
        rcases List.mem_cons.mp hc with hc | hc
        · subst hc; exact hcond.2.2
        · have := ih _ c hc
          simp only at this
          have := hcond.2.2
          linarith
      · rw [loopRun, if_neg hcond] at hc
        exact ih _ c hc

/-- C6 counterexample: from the initial state, the admissible trace with a
recognising frame at `t = 4` and the next at `t = 10` produces two cycles.
The first starts at `4` and holds for its 5-second dwell, completing at
`9`; the frame at `10` — only 1 second after that completion, well inside
the 3-second cooldown the claim requires since the *completed* cycle —
still starts a second cycle, because the code measures the cooldown from
the recorded start time (`10 - 4 > 3`). The last conjunct records
`10 < 9 + 3`. -/
theorem cycle_starts_one_second_after_completion :
    admissible ⟨false, 0⟩ 0 [⟨4, 1, true⟩, ⟨10, 1, true⟩] = true ∧
      loopRun ⟨false, 0⟩ [⟨4, 1, true⟩, ⟨10, 1, true⟩] = [⟨4, 5⟩, ⟨10, 5⟩] ∧
      (10 : ℚ) < 4 + 5 + 3 := by
  refine ⟨?_, ?_, by norm_num⟩ <;>
    norm_num [admissible, loopRun, handlerDur]

/-- C6 (amended): on every admissible frame trace, the cycles the camera
loop starts are pairwise non-overlapping — each cycle's handler ends before
the next cycle starts, so at most one recognition cycle is ever in flight —
and any two cycles start strictly more than 3 seconds apart: the cooldown
is enforced between recorded cycle START times (the code stamps
`last_recognition_time` with the cycle's start), not since the last
completed cycle. -/
theorem cameraLoop_cycles_cooldown_and_disjoint (s : LoopState) (now : ℚ)
    (fs : List Frame) (h : admissible s now fs = true) :
    List.Pairwise
      (fun c1 c2 => c1.start + c1.dur ≤ c2.start ∧ c1.start + 3 < c2.start)
      (loopRun s fs) := by
  induction fs generalizing s now with
  | nil => simp [loopRun]
  | cons f rest ih =>
      rw [admissible, Bool.and_eq_true, decide_eq_true_eq] at h
      obtain ⟨hnow, hbr⟩ := h
      by_cases hcond :
          0 < f.faces ∧ s.processing = false ∧ s.last_recognition_time + 3 < f.t
      · rw [if_pos hcond] at hbr
        rw [loopRun, if_pos hcond]
        refine List.Pairwise.cons (fun c hc => ⟨?_, ?_⟩) (ih _ _ hbr)
        · exact loopRun_start_ge _ _ _ hbr c hc
        · exact loopRun_start_gt_cooldown _ _ c hc
      · rw [if_neg hcond] at hbr
        rw [loopRun, if_neg hcond]
        exact ih _ _ hbr

/-- Witness for C6 (amended) on the concrete two-frame trace. -/
theorem cameraLoop_cycles_cooldown_and_disjoint_witness :
    List.Pairwise
      (fun c1 c2 : Cycle => c1.start + c1.dur ≤ c2.start ∧ c1.start + 3 < c2.start)
      (loopRun ⟨false, 0⟩ [⟨4, 1, true⟩, ⟨10, 1, true⟩]) :=
  cameraLoop_cycles_cooldown_and_disjoint ⟨false, 0⟩ 0 [⟨4, 1, true⟩, ⟨10, 1, true⟩]
    (by norm_num [admissible, handlerDur])

end SmartDoorbell

namespace SmartDoorbell

/-- `DeviceServiceLocal.initiate_call_to_owner` (`smart_doorbell.py` lines
249-273). `callOk` is whether the external `linphone.call()` returns
normally; the second component records whether `linphone.call()` was
invoked (a call attempt). The debounce check is
`current_time - self.last_button_press < self.button_debounce_time` with
`button_debounce_time = 2` — and `last_button_press` is never assigned
anywhere in `smart_doorbell.py` after `__init__` sets it to `0` (compare
`device_service_local.py` line 208, which stamps it after the check). On
the success path `call_in_progress` stays `True`; only the `except` branch
resets it. -/
def initiate_call_to_owner (now : ℚ) (callOk : Bool) (s : SDState) :
    SDState × Bool :=
  if now - s.last_button_press < 2 then (s, false)
  else if s.call_in_progress then (s, false)
  else if callOk then ({ s with call_in_progress := true }, true)
  else ({ s with call_in_progress := false }, true)

/-- The operations on the service state reachable from the camera loop, the
Flask routes and the SocketIO handlers of `smart_doorbell.py`:
`callPress` covers the hardware-button branch of the camera loop, the
`POST /api/call` route (`trigger_call`) and the `call_owner` SocketIO
event — all three do nothing but call `initiate_call_to_owner`;
`doorCommand` is the `POST /api/door/control` route; `recognizedCycle` and
`unrecognizedCycle` are the recognition handlers (they touch the relay and
`local_door_state`, never the call fields); `statusQuery` covers
`/api/status`, `/video_feed`, `connect`, `request_status` and `disconnect`
(all read-only). `_end_call` — the only other writer of
`call_in_progress` — is never invoked: its single call site, the
auto-hangup `threading.Timer(30, self._end_call)`, is commented out. -/
inductive Event where
  | callPress (now : ℚ) (callOk : Bool)
  | doorCommand (now : Int) (env : Option Security.Envelope)
  | recognizedCycle (name : String)
  | unrecognizedCycle
  | statusQuery
deriving Repr, DecidableEq

/-- Effect of one event on the service state, paired with the number of
`linphone.call()` invocations it performs. -/
def stepEvent (s : SDState) : Event → SDState × Nat
  | .callPress now callOk =>
      ((initiate_call_to_owner now callOk s).1,
        if (initiate_call_to_owner now callOk s).2 then 1 else 0)
  | .doorCommand now env =>
      ({ s with local_door_state := (door_control now env s.local_door_state).2 }, 0)
  | .recognizedCycle name => ((handle_recognized_person s name).2, 0)
  | .unrecognizedCycle => ((handle_unrecognized_person s).2, 0)
  | .statusQuery => (s, 0)

/-- Run a list of events from a state, accumulating the number of
`linphone.call()` invocations. -/
def runEvents (s : SDState) : List Event → SDState × Nat
  | [] => (s, 0)
  | e :: rest =>
      ((runEvents (stepEvent s e).1 rest).1,
        (stepEvent s e).2 + (runEvents (stepEvent s e).1 rest).2)

/-- Helper: no single reachable operation clears a set `call_in_progress`
flag or places a call while it is set — `initiate_call_to_owner` returns at
its guard before reaching the `try`/`except`, and no other operation
touches the flag. -/
theorem stepEvent_preserves_call_in_progress (s : SDState) (e : Event)
    (h : s.call_in_progress = true) :
    (stepEvent s e).1.call_in_progress = true ∧ (stepEvent s e).2 = 0 := by
  cases e with
  | callPress now callOk =>
      by_cases hd : now - s.last_button_press < 2 <;>
        simp [stepEvent, initiate_call_to_owner, hd, h]
  | doorCommand now env => exact ⟨h, rfl⟩
  | recognizedCycle name => exact ⟨h, rfl⟩
  | unrecognizedCycle => exact ⟨h, rfl⟩
  | statusQuery => exact ⟨h, rfl⟩

/-- C9 (as claimed): once `call_in_progress` is `True`, no sequence of
operations reachable from the camera loop, the HTTP routes or the SocketIO
handlers ever resets it, and every subsequent call attempt returns without
invoking `linphone.call()` — the flag is absorbing for the rest of the
run. -/
theorem call_in_progress_latched_forever (s : SDState) (evs : List Event)
    (h : s.call_in_progress = true) :
    (runEvents s evs).1.call_in_progress = true ∧ (runEvents s evs).2 = 0 := by
  induction evs generalizing s with
  | nil => exact ⟨h, rfl⟩
  | cons e rest ih =>
      obtain ⟨h1, h2⟩ := stepEvent_preserves_call_in_progress s e h
      obtain ⟨h3, h4⟩ := ih _ h1
      exact ⟨h3, by rw [runEvents, h2, h4]⟩

/-- Witness for C9: from a state with a call in progress, a button press,
a remote unlock, a recognition cycle and a status query leave the flag set
and place no call. -/
theorem call_in_progress_latched_forever_witness :
    (runEvents ⟨true, 0, .locked⟩
        [.callPress 100 true, .doorCommand 5 (some envUnlock5),
         .recognizedCycle "Alice", .statusQuery]).1.call_in_progress = true ∧
      (runEvents ⟨true, 0, .locked⟩
        [.callPress 100 true, .doorCommand 5 (some envUnlock5),
         .recognizedCycle "Alice", .statusQuery]).2 = 0 :=
  call_in_progress_latched_forever ⟨true, 0, .locked⟩
    [.callPress 100 true, .doorCommand 5 (some envUnlock5),
     .recognizedCycle "Alice", .statusQuery] rfl

/-- C7 (code bug): two button presses one second apart — the second well
inside the 2-second debounce window of the first accepted press — both
invoke `linphone.call()` when the first attempt fails (the `except` branch
resets `call_in_progress`): because `last_button_press` is never updated,
the debounce check `now - 0 < 2` never engages for realistic clock values,
so the press at `t = 101` is not debounced and a second call attempt is
made. -/
theorem smartDoorbell_debounce_never_engages :
    (runEvents ⟨false, 0, .locked⟩
        [.callPress 100 false, .callPress 101 true]).2 = 2 ∧
      (101 : ℚ) - 100 < 2 := by
  constructor
  · norm_num [runEvents, stepEvent, initiate_call_to_owner]
  · norm_num

end SmartDoorbell
